import Mathlib

/-!
Shallow embedding of the ballistica scripting excerpt:
  * `src/assets/src/ba_data/python/ba/_general.py` — the strong/weak
    callable wrappers `_Call`, `_WeakCall` and `WeakMethod`;
  * `src/assets/src/data/scripts/ba/_stats.py` — the per-player score
    bookkeeping (`PlayerRecord`, `Stats`).

Python objects become Lean structures; dictionary state becomes a
function map `String → Option PlayerRecord`; weak references become
object identifiers (`Nat`) dereferenced through an explicit liveness
snapshot supplied at call time; engine timers become data (the armed
duration, plus an explicit `ScheduledBonus` value describing what the
deferred callback would add), since the host engine owns real scheduling.
Exceptions become `Option`/`Except` results.
-/

namespace Ballistica

/-- A snapshot of the weak-reference heap at call time: dereferencing
object id `i` yields `some o` when the target is still alive and `none`
when it has died.  Models `weakref.ref(x)()`. -/
def Deref (σ : Type) : Type := Nat → Option σ

/-- Embedding of `ba._general.WeakMethod`: a weak-referenced bound
method.  `func` is `call.__func__` (the underlying plain function,
taking the instance explicitly) and `obj` is the id of the weakly
referenced `call.__self__`. -/
structure WeakMethod (σ α κ β : Type) where
  func : σ → List α → κ → β
  obj : Nat

/-- Embedding of `WeakMethod.__call__`: dereference the weak instance
reference; if dead, perform no call and return `None` (here `none`);
if alive, call the function on the instance with the given arguments
and keywords. -/
def WeakMethod.call (w : WeakMethod σ α κ β) (deref : Deref σ)
    (args : List α) (keywds : κ) : Option β :=
  match deref w.obj with
  | none => none
  | some o => some (w.func o args keywds)

/-- Embedding of `ba._general._WeakCall` in the case the claims are
about: built from a bound method, so `_call` is a `WeakMethod` and the
constructor's remaining positional arguments and keywords are stored
strongly. -/
structure WeakCall (σ α κ β : Type) where
  target : WeakMethod σ α κ β
  args : List α
  keywds : κ

/-- Embedding of `_WeakCall.__call__`: forwards the stored arguments
followed by the extra call-time arguments, plus the stored keywords,
to the wrapped weak method. -/
def WeakCall.run (c : WeakCall σ α κ β) (deref : Deref σ)
    (args_extra : List α) : Option β :=
  c.target.call deref (c.args ++ args_extra) c.keywds

/-- Embedding of `ba._general._Call`: a strong-referenced callable with
stored positional arguments and keywords. -/
structure Call (α κ β : Type) where
  func : List α → κ → β
  args : List α
  keywds : κ

/-- Embedding of `_Call.__call__`: calls the stored callable with the
stored arguments followed by the extra call-time arguments, and the
stored keywords. -/
def Call.run (c : Call α κ β) (args_extra : List α) : β :=
  c.func (c.args ++ args_extra) c.keywds

/-- Embedding of `ba.Player` as seen by `_stats.py`: only the fields
this module reads.  The team is a weak-reference target, kept as an id. -/
structure Player where
  name : String
  name_full : String
  teamId : Nat
  character : String
deriving Repr, DecidableEq

/-- A deferred multi-kill popup/bonus scheduled by `submit_kill` via
`_ba.timer(300 + delay, Call(_apply, ...), timeformat=MILLISECONDS)`:
the fire delay in milliseconds and the score the deferred `_apply`
callback would add. -/
structure ScheduledBonus where
  fireDelayMs : Nat
  score : Int
  showpoints : Bool
deriving Repr, DecidableEq

/-- Embedding of `ba._stats.PlayerRecord`.  Weak references (`_spaz`,
`_team`) are kept as optional object ids; `multi_kill_timer` holds the
armed streak-reset timer's duration in milliseconds (the source arms
`_ba.Timer(1.0, self._end_multi_kill)`, i.e. 1000 ms), or `none` when
no timer is armed. -/
structure PlayerRecord where
  name : String
  name_full : String
  score : Int
  accumscore : Int
  kill_count : Nat
  accum_kill_count : Nat
  killed_count : Nat
  accum_killed_count : Nat
  multi_kill_timer : Option Nat
  multikillcount : Nat
  last_player : Option Player
  player : Option Player
  spaz : Option Nat
  team : Option Nat
  character : String
  streak : Nat
deriving Repr, DecidableEq

/-- Embedding of `PlayerRecord.associate_with_player`: re-points the
team weak reference, character, player references, clears the spaz and
zeroes the streak. -/
def PlayerRecord.associate_with_player (r : PlayerRecord) (p : Player) :
    PlayerRecord :=
  { r with
    team := some p.teamId
    character := p.character
    last_player := some p
    player := some p
    spaz := none
    streak := 0 }

/-- Embedding of `PlayerRecord.__init__`: all tallies start at 0, then
`associate_with_player(player)` runs, and afterwards `__init__` itself
re-assigns `_spaz = None`, `_team = None` and `streak = 0` (lines 60-62
of the source, overwriting the team set by the association). -/
def PlayerRecord.init (pname pname_full : String) (p : Player) :
    PlayerRecord :=
  let r0 : PlayerRecord :=
    { name := pname, name_full := pname_full, score := 0, accumscore := 0
      kill_count := 0, accum_kill_count := 0, killed_count := 0
      accum_killed_count := 0, multi_kill_timer := none, multikillcount := 0
      last_player := none, player := none, spaz := none, team := none
      character := "", streak := 0 }
  let r1 := r0.associate_with_player p
  { r1 with spaz := none, team := none, streak := 0 }

/-- Embedding of `PlayerRecord.set_spaz`. -/
def PlayerRecord.set_spaz (r : PlayerRecord) (spaz : Option Nat) :
    PlayerRecord :=
  { r with spaz := spaz }

/-- Embedding of `PlayerRecord.get_spaz`: `None` when no weak reference
is stored, otherwise the dereference of the weak reference (dead targets
yield `None`).  `live` is the liveness snapshot at call time. -/
def PlayerRecord.get_spaz (r : PlayerRecord) (live : Nat → Bool) :
    Option Nat :=
  match r.spaz with
  | none => none
  | some a => if live a then some a else none

/-- Embedding of `PlayerRecord.cancel_multi_kill_timer`. -/
def PlayerRecord.cancel_multi_kill_timer (r : PlayerRecord) : PlayerRecord :=
  { r with multi_kill_timer := none }

/-- Embedding of `PlayerRecord._end_multi_kill`, the callback of the
1-second streak timer: clears the timer and resets the counter to 0. -/
def PlayerRecord.end_multi_kill (r : PlayerRecord) : PlayerRecord :=
  { r with multi_kill_timer := none, multikillcount := 0 }

/-- The score of the deferred popup picked by `submit_kill`'s
`if/elif` chain on the just-incremented `_multikillcount`. -/
def submitKillScore (k : Nat) : Int :=
  if k = 1 then 0
  else if k = 2 then 20
  else if k = 3 then 40
  else if k = 4 then 60
  else if k = 5 then 80
  else 100

/-- The extra delay picked by the same `if/elif` chain. -/
def submitKillDelay (k : Nat) : Nat :=
  if k = 1 then 0
  else if k = 2 then 0
  else if k = 3 then 300
  else if k = 4 then 600
  else if k = 5 then 900
  else 1000

/-- Whether the chain picked a non-`None` popup name; `submit_kill`
schedules the deferred `_apply` call only in that case (`k ≠ 1`). -/
def submitKillHasPopup (k : Nat) : Bool := k ≠ 1

/-- Embedding of `PlayerRecord.submit_kill`: increments
`_multikillcount`, schedules the deferred popup/bonus when the chain
picked a name (returned as data, since the engine owns the timer), and
re-arms the 1-second (1000 ms) streak timer whose callback is
`_end_multi_kill`. -/
def PlayerRecord.submit_kill (r : PlayerRecord) (showpoints : Bool) :
    PlayerRecord × Option ScheduledBonus :=
  let k := r.multikillcount + 1
  let sched : Option ScheduledBonus :=
    if submitKillHasPopup k then
      some { fireDelayMs := 300 + submitKillDelay k
             score := submitKillScore k
             showpoints := showpoints }
    else none
  ({ r with multikillcount := k, multi_kill_timer := some 1000 }, sched)

/-- The points the deferred bonus adds: 0 when nothing was scheduled. -/
def bonusPoints : Option ScheduledBonus → Int
  | none => 0
  | some b => b.score

/-- Embedding of `ba._stats.Stats`: the `_player_records` dictionary as
a function map.  The activity weak reference and the sound handles play
no role in the claims' state bookkeeping and are engine-owned. -/
structure Stats where
  records : String → Option PlayerRecord

/-- Embedding of `Stats.register_player`: an existing record for the
player's name is re-associated (the `try` branch); a missing record
(a `KeyError` in the lookup) is replaced by a fresh `PlayerRecord`. -/
def Stats.register_player (s : Stats) (p : Player) : Stats :=
  match s.records p.name with
  | some r =>
    ⟨fun n => if n = p.name then some (r.associate_with_player p)
              else s.records n⟩
  | none =>
    ⟨fun n => if n = p.name then some (PlayerRecord.init p.name p.name_full p)
              else s.records n⟩

/-- The per-record effect of `Stats.reset_accum` on one entry: cancel
the multi-kill timer and zero the four accumulated fields. -/
def resetAccumEntry (r : PlayerRecord) : PlayerRecord :=
  { r.cancel_multi_kill_timer with
    accumscore := 0
    accum_kill_count := 0
    accum_killed_count := 0
    streak := 0 }

/-- Embedding of `Stats.reset_accum`: applies `resetAccumEntry` to every
registered record. -/
def Stats.reset_accum (s : Stats) : Stats :=
  ⟨fun n => (s.records n).map resetAccumEntry⟩

/-- Embedding of `Stats.reset`: cancels all timers and empties the
record dictionary. -/
def Stats.reset (_s : Stats) : Stats :=
  ⟨fun _ => none⟩

/-- Embedding of the synchronous state effect of `Stats.player_scored`.
Returns `none` on the `KeyError` for an unregistered name; otherwise
the updated stats, the deferred bonus `submit_kill` scheduled (when
`kill` is true), and the returned point value.  Display, popups and
screen messages are engine side effects with no bearing on the record
state and are omitted; `points = base_points` with no multiplier, as in
the source (line 383 then 449-450, returning `points` at line 458). -/
def Stats.player_scored (s : Stats) (p : Player) (base_points : Int)
    (kill : Bool) (showpoints : Bool) :
    Option (Stats × Option ScheduledBonus × Int) :=
  match s.records p.name with
  | none => none
  | some r0 =>
    let ks := if kill then r0.submit_kill showpoints else (r0, none)
    let r1 := ks.1
    let points := base_points
    let r2 := if kill then
        { r1 with
          accum_kill_count := r1.accum_kill_count + 1
          kill_count := r1.kill_count + 1 }
      else r1
    let r3 := { r2 with
                score := r2.score + points
                accumscore := r2.accumscore + points }
    some (⟨fun n => if n = p.name then some r3 else s.records n⟩, ks.2, points)

/-- Embedding of the state effect of `Stats.player_lost_spaz`: `none`
on the `KeyError` for an unregistered name; otherwise clears the spaz,
zeroes the streak, and bumps the killed tallies when `killed`.  The
announcement messages are engine side effects without record-state
impact. -/
def Stats.player_lost_spaz (s : Stats) (p : Player) (killed : Bool) :
    Option Stats :=
  match s.records p.name with
  | none => none
  | some r0 =>
    let r1 := { r0.set_spaz none with streak := 0 }
    let r2 := if killed then
        { r1 with
          accum_killed_count := r1.accum_killed_count + 1
          killed_count := r1.killed_count + 1 }
      else r1
    some ⟨fun n => if n = p.name then some r2 else s.records n⟩

/-- Embedding of `Stats.player_got_new_spaz`: `none` on the `KeyError`
for an unregistered name; `Except.error` when the record already holds
a live spaz (the `raise` happens before any mutation, so the state is
unchanged); otherwise sets the record's spaz to the given actor. -/
def Stats.player_got_new_spaz (s : Stats) (live : Nat → Bool) (p : Player)
    (spaz : Nat) : Option (Except String Stats) :=
  match s.records p.name with
  | none => none
  | some r =>
    if (r.get_spaz live).isSome then
      some (Except.error
        "got 2 player_got_new_spaz() messages in a row without a lost-spaz message")
    else
      some (Except.ok
        ⟨fun n => if n = p.name then some (r.set_spaz (some spaz))
                  else s.records n⟩)

/-! Sample concrete data used by the witnesses. -/

/-- A concrete player used by the witnesses. -/
def samplePlayer : Player :=
  { name := "alice", name_full := "Alice", teamId := 3, character := "Spaz" }

/-- A concrete freshly initialised record used by the witnesses. -/
def sampleRecord : PlayerRecord := PlayerRecord.init "alice" "Alice" samplePlayer

/-- A concrete stats instance with one registered player. -/
def sampleStats : Stats :=
  ⟨fun n => if n = "alice" then some sampleRecord else none⟩

/-- C5: invoking the strong call adapter built as `Call(f, a₁..aₙ, **kw)`
with extra positional arguments `e₁..eₘ` produces the same result as
calling `f(a₁..aₙ, e₁..eₘ, **kw)` directly. -/
theorem Call_run_eq_direct {α κ β : Type} (f : List α → κ → β)
    (a e : List α) (kw : κ) :
    (Call.mk f a kw).run e = f (a ++ e) kw := rfl

/-- C4: for a weak method wrapper and a `WeakCall` built from a bound
method, a dead target at call time means no call happens and `None` is
returned; a live target `o` means the underlying function is called on
`o` with the stored arguments followed by the extra arguments and the
stored keywords. -/
theorem weak_wrappers_spec {σ α κ β : Type} (w : WeakMethod σ α κ β)
    (c : WeakCall σ α κ β) (deref : Deref σ) (args extra : List α) (kw : κ) :
    (deref w.obj = none → w.call deref args kw = none) ∧
    (∀ o, deref w.obj = some o →
      w.call deref args kw = some (w.func o args kw)) ∧
    (deref c.target.obj = none → c.run deref extra = none) ∧
    (∀ o, deref c.target.obj = some o →
      c.run deref extra =
        some (c.target.func o (c.args ++ extra) c.keywds)) := by
  refine ⟨fun h => ?_, fun o h => ?_, fun h => ?_, fun o h => ?_⟩ <;>
    simp [WeakMethod.call, WeakCall.run, h]

/-- Witness for C4: a dead target yields `none`; an alive target with
stored argument `[1]`, extra argument `[2]` and keyword `5` computes
`7 + (1 + 2) + 5 = 15`. -/
theorem weak_wrappers_spec_witness :
    (WeakMethod.mk (fun (o : Nat) (a : List Nat) (k : Nat) => o + a.sum + k)
        0).call (fun _ => none) [1, 2] 5 = none ∧
    (WeakCall.mk
        (WeakMethod.mk (fun (o : Nat) (a : List Nat) (k : Nat) => o + a.sum + k)
          0) [1] 5).run (fun i => if i = 0 then some 7 else none) [2] =
      some 15 := by
  constructor
  · exact (weak_wrappers_spec
      (WeakMethod.mk (fun (o : Nat) (a : List Nat) (k : Nat) => o + a.sum + k) 0)
      (WeakCall.mk
        (WeakMethod.mk (fun (o : Nat) (a : List Nat) (k : Nat) => o + a.sum + k)
          0) [1] 5)
      (fun _ => none) [1, 2] [2] 5).1 rfl
  · have h := (weak_wrappers_spec
      (WeakMethod.mk (fun (o : Nat) (a : List Nat) (k : Nat) => o + a.sum + k) 0)
      (WeakCall.mk
        (WeakMethod.mk (fun (o : Nat) (a : List Nat) (k : Nat) => o + a.sum + k)
          0) [1] 5)
      (fun i => if i = 0 then some 7 else none) [] [2] 5).2.2.2 7 rfl
    simpa using h

/-- C2: `submit_kill` increments the multi-kill counter by exactly 1 and
re-arms the 1-second (1000 ms) streak timer; its callback
`_end_multi_kill` resets the counter to 0 and clears the timer; and the
deferred bonus scheduled for the k-th kill of the streak is worth 0
points for k = 1 (nothing is scheduled), 20 for k = 2, 40 for k = 3,
60 for k = 4, 80 for k = 5, and 100 for every k ≥ 6. -/
theorem submit_kill_spec (r : PlayerRecord) (sp : Bool) :
    (r.submit_kill sp).1.multikillcount = r.multikillcount + 1 ∧
    (r.submit_kill sp).1.multi_kill_timer = some 1000 ∧
    (∀ q : PlayerRecord, q.end_multi_kill.multikillcount = 0 ∧
      q.end_multi_kill.multi_kill_timer = none) ∧
    bonusPoints (r.submit_kill sp).2 =
      (if r.multikillcount + 1 = 1 then 0
       else if r.multikillcount + 1 = 2 then 20
       else if r.multikillcount + 1 = 3 then 40
       else if r.multikillcount + 1 = 4 then 60
       else if r.multikillcount + 1 = 5 then 80
       else 100) := by
  refine ⟨rfl, rfl, fun q => ⟨rfl, rfl⟩, ?_⟩
  by_cases h1 : r.multikillcount + 1 = 1 <;>
    simp [PlayerRecord.submit_kill, bonusPoints, submitKillHasPopup,
      submitKillScore, h1]

/-- C1: for a registered player, `player_scored` immediately adds exactly
`base_points` to the record's `score` and `accumscore`, returns
`base_points` unchanged by any multiplier, and leaves the records of all
other names untouched (for any `kill`/`showpoints` flags). -/
theorem player_scored_points_spec (s : Stats) (p : Player) (bp : Int)
    (kill sp : Bool) (r : PlayerRecord) (h : s.records p.name = some r) :
    ∃ out, s.player_scored p bp kill sp = some out ∧
      out.2.2 = bp ∧
      (∃ r', out.1.records p.name = some r' ∧
        r'.score = r.score + bp ∧ r'.accumscore = r.accumscore + bp) ∧
      ∀ n, n ≠ p.name → out.1.records n = s.records n := by
  cases kill <;>
    (unfold Stats.player_scored; rw [h];
     exact ⟨_, rfl, rfl, ⟨_, if_pos rfl, rfl, rfl⟩, fun n hn => if_neg hn⟩)

/-- Witness for C1 at a concrete registered player and 5 base points. -/
theorem player_scored_points_spec_witness :
    sampleStats.records "alice" = some sampleRecord ∧
    ∃ out, sampleStats.player_scored samplePlayer 5 true true = some out ∧
      out.2.2 = 5 ∧
      (∃ r', out.1.records "alice" = some r' ∧
        r'.score = sampleRecord.score + 5 ∧
        r'.accumscore = sampleRecord.accumscore + 5) ∧
      ∀ n, n ≠ "alice" → out.1.records n = sampleStats.records n :=
  ⟨rfl, player_scored_points_spec sampleStats samplePlayer 5 true true
    sampleRecord rfl⟩

/-- C3: for a registered player, `player_scored` with `kill = True`
increments the record's `kill_count` and `accum_kill_count` each by
exactly 1, and with `kill = False` leaves both kill tallies unchanged. -/
theorem player_scored_kill_tally_spec (s : Stats) (p : Player) (bp : Int)
    (sp kill : Bool) (r : PlayerRecord) (h : s.records p.name = some r) :
    ∃ out, s.player_scored p bp kill sp = some out ∧
      ∃ r', out.1.records p.name = some r' ∧
        r'.kill_count = r.kill_count + (if kill then 1 else 0) ∧
        r'.accum_kill_count = r.accum_kill_count + (if kill then 1 else 0) := by
  cases kill <;>
    (unfold Stats.player_scored; rw [h];
     exact ⟨_, rfl, _, if_pos rfl, rfl, rfl⟩)

/-- Witness for C3 at a concrete registered player, both kill flags. -/
theorem player_scored_kill_tally_spec_witness :
    (∃ out, sampleStats.player_scored samplePlayer 1 true true = some out ∧
      ∃ r', out.1.records "alice" = some r' ∧
        r'.kill_count = sampleRecord.kill_count + 1 ∧
        r'.accum_kill_count = sampleRecord.accum_kill_count + 1) ∧
    (∃ out, sampleStats.player_scored samplePlayer 1 false true = some out ∧
      ∃ r', out.1.records "alice" = some r' ∧
        r'.kill_count = sampleRecord.kill_count ∧
        r'.accum_kill_count = sampleRecord.accum_kill_count) :=
  ⟨player_scored_kill_tally_spec sampleStats samplePlayer 1 true true
      sampleRecord rfl,
   player_scored_kill_tally_spec sampleStats samplePlayer 1 true false
      sampleRecord rfl⟩

/-- C6: for a registered player, `player_lost_spaz` clears the record's
spaz and zeroes its streak; with `killed = True` it additionally bumps
`killed_count` and `accum_killed_count` each by exactly 1, and with
`killed = False` both killed tallies are unchanged. -/
theorem player_lost_spaz_spec (s : Stats) (p : Player) (killed : Bool)
    (r : PlayerRecord) (h : s.records p.name = some r) :
    ∃ s', s.player_lost_spaz p killed = some s' ∧
      ∃ r', s'.records p.name = some r' ∧
        r'.spaz = none ∧ r'.streak = 0 ∧
        r'.killed_count = r.killed_count + (if killed then 1 else 0) ∧
        r'.accum_killed_count =
          r.accum_killed_count + (if killed then 1 else 0) ∧
        ∀ n, n ≠ p.name → s'.records n = s.records n := by
  cases killed <;>
    (unfold Stats.player_lost_spaz; rw [h];
     exact ⟨_, rfl, _, if_pos rfl, rfl, rfl, rfl, rfl, fun n hn => if_neg hn⟩)

/-- Witness for C6 at a concrete registered player with `killed = true`. -/
theorem player_lost_spaz_spec_witness :
    ∃ s', sampleStats.player_lost_spaz samplePlayer true = some s' ∧
      ∃ r', s'.records "alice" = some r' ∧
        r'.spaz = none ∧ r'.streak = 0 ∧
        r'.killed_count = sampleRecord.killed_count + 1 ∧
        r'.accum_killed_count = sampleRecord.accum_killed_count + 1 ∧
        ∀ n, n ≠ "alice" → s'.records n = sampleStats.records n :=
  player_lost_spaz_spec sampleStats samplePlayer true sampleRecord rfl

/-- C7: `reset_accum` maps every registered record through
`resetAccumEntry`, which zeroes `accumscore`, `accum_kill_count`,
`accum_killed_count` and `streak` and cancels the multi-kill timer,
while preserving `score`, `kill_count`, `killed_count` and the name
fields; the set of registered names is unchanged. -/
theorem reset_accum_spec (s : Stats) (n : String) (r : PlayerRecord) :
    s.reset_accum.records n = (s.records n).map resetAccumEntry ∧
    (s.reset_accum.records n = none ↔ s.records n = none) ∧
    (resetAccumEntry r).accumscore = 0 ∧
    (resetAccumEntry r).accum_kill_count = 0 ∧
    (resetAccumEntry r).accum_killed_count = 0 ∧
    (resetAccumEntry r).streak = 0 ∧
    (resetAccumEntry r).multi_kill_timer = none ∧
    (resetAccumEntry r).score = r.score ∧
    (resetAccumEntry r).kill_count = r.kill_count ∧
    (resetAccumEntry r).killed_count = r.killed_count ∧
    (resetAccumEntry r).name = r.name ∧
    (resetAccumEntry r).name_full = r.name_full := by
  refine ⟨rfl, ?_, rfl, rfl, rfl, rfl, rfl, rfl, rfl, rfl, rfl, rfl⟩
  cases hn : s.records n <;> simp [Stats.reset_accum, hn]

/-- C8: `register_player` for a name that already has a record reuses and
re-associates that record, preserving all six tallies while updating the
team, character, player references, clearing the spaz and zeroing the
streak; for a name with no record it installs a fresh record whose
tallies all start at 0.  Other names' records are untouched. -/
theorem register_player_spec (s : Stats) (p : Player) :
    (∀ r, s.records p.name = some r →
      (s.register_player p).records p.name =
        some (r.associate_with_player p) ∧
      (r.associate_with_player p).score = r.score ∧
      (r.associate_with_player p).accumscore = r.accumscore ∧
      (r.associate_with_player p).kill_count = r.kill_count ∧
      (r.associate_with_player p).accum_kill_count = r.accum_kill_count ∧
      (r.associate_with_player p).killed_count = r.killed_count ∧
      (r.associate_with_player p).accum_killed_count = r.accum_killed_count ∧
      (r.associate_with_player p).team = some p.teamId ∧
      (r.associate_with_player p).character = p.character ∧
      (r.associate_with_player p).player = some p ∧
      (r.associate_with_player p).last_player = some p ∧
      (r.associate_with_player p).spaz = none ∧
      (r.associate_with_player p).streak = 0) ∧
    (s.records p.name = none →
      (s.register_player p).records p.name =
        some (PlayerRecord.init p.name p.name_full p) ∧
      (PlayerRecord.init p.name p.name_full p).score = 0 ∧
      (PlayerRecord.init p.name p.name_full p).accumscore = 0 ∧
      (PlayerRecord.init p.name p.name_full p).kill_count = 0 ∧
      (PlayerRecord.init p.name p.name_full p).accum_kill_count = 0 ∧
      (PlayerRecord.init p.name p.name_full p).killed_count = 0 ∧
      (PlayerRecord.init p.name p.name_full p).accum_killed_count = 0 ∧
      (PlayerRecord.init p.name p.name_full p).streak = 0) ∧
    (∀ n, n ≠ p.name → (s.register_player p).records n = s.records n) := by
  refine ⟨fun r hr => ?_, fun hn => ?_, fun n hn => ?_⟩
  · unfold Stats.register_player
    rw [hr]
    exact ⟨if_pos rfl, rfl, rfl, rfl, rfl, rfl, rfl, rfl, rfl, rfl, rfl, rfl,
      rfl⟩
  · unfold Stats.register_player
    rw [hn]
    exact ⟨if_pos rfl, rfl, rfl, rfl, rfl, rfl, rfl, rfl⟩
  · unfold Stats.register_player
    cases hsr : s.records p.name <;> exact if_neg hn

/-- Witness for C8: re-registering reuses the existing record, while a
fresh registration installs a zeroed record; another name is untouched. -/
theorem register_player_spec_witness :
    (sampleStats.register_player samplePlayer).records "alice" =
      some (sampleRecord.associate_with_player samplePlayer) ∧
    ((Stats.mk fun _ => none).register_player samplePlayer).records "alice" =
      some (PlayerRecord.init "alice" "Alice" samplePlayer) ∧
    (sampleStats.register_player samplePlayer).records "bob" =
      sampleStats.records "bob" :=
  ⟨((register_player_spec sampleStats samplePlayer).1 sampleRecord rfl).1,
   ((register_player_spec ⟨fun _ => none⟩ samplePlayer).2.1 rfl).1,
   (register_player_spec sampleStats samplePlayer).2.2 "bob" (by decide)⟩

/-- C9: for a registered player, `player_got_new_spaz` raises exactly
when the record already holds a live spaz (leaving the state untouched,
since the `raise` precedes any mutation); otherwise it sets the record's
spaz to the given actor and raises nothing, leaving other records
unchanged. -/
theorem player_got_new_spaz_spec (s : Stats) (live : Nat → Bool) (p : Player)
    (a : Nat) (r : PlayerRecord) (h : s.records p.name = some r) :
    ((r.get_spaz live).isSome = true →
      s.player_got_new_spaz live p a = some (Except.error
        "got 2 player_got_new_spaz() messages in a row without a lost-spaz message")) ∧
    ((r.get_spaz live).isSome = false →
      ∃ s', s.player_got_new_spaz live p a = some (Except.ok s') ∧
        s'.records p.name = some (r.set_spaz (some a)) ∧
        (r.set_spaz (some a)).spaz = some a ∧
        ∀ n, n ≠ p.name → s'.records n = s.records n) := by
  constructor
  · intro hc
    unfold Stats.player_got_new_spaz
    rw [h]
    simp [hc]
  · intro hc
    have e : s.player_got_new_spaz live p a =
        some (Except.ok ⟨fun n => if n = p.name then some (r.set_spaz (some a))
          else s.records n⟩) := by
      unfold Stats.player_got_new_spaz
      rw [h]
      simp [hc]
    exact ⟨_, e, if_pos rfl, rfl, fun n hn => if_neg hn⟩

/-- Witness for C9: a record with no live spaz accepts the new actor id 9
and no exception is raised. -/
theorem player_got_new_spaz_spec_witness :
    ∃ s', sampleStats.player_got_new_spaz (fun _ => true) samplePlayer 9 =
        some (Except.ok s') ∧
      s'.records "alice" = some (sampleRecord.set_spaz (some 9)) ∧
      (sampleRecord.set_spaz (some 9)).spaz = some 9 ∧
      ∀ n, n ≠ "alice" → s'.records n = sampleStats.records n :=
  (player_got_new_spaz_spec sampleStats (fun _ => true) samplePlayer 9
    sampleRecord rfl).2 rfl

end Ballistica
